import Mathlib

/-!
Verification of the CAP1203 capacitive-touch-sensor driver
(`src/cap1203.py`): a shallow embedding of the bit-field codec and of the
register-level driver operations, with theorems checking the
natural-language specification against the code.

Python integers are unbounded, so the codec is embedded over `Nat`;
`register & ~(mask << index)` on a non-negative register is `Nat.ldiff`.
-/

namespace CAP1203

/-! ### Register map (src/cap1203.py lines 9-53) -/

def ADDRESS : Nat := 0x28

def MAIN_CONTROL : Nat := 0x00
def GENERAL_STATUS : Nat := 0x02
def SENSOR_INPUT_STATUS : Nat := 0x03
def SENSITIVITY_CONTROL : Nat := 0x1F
def CALIBRATION_ACTIVATE_AND_STATUS : Nat := 0x26
def INTERRUPT_ENABLE : Nat := 0x27
def BASE_COUNT_OUT : Nat := 0x2E
def POWER_BUTTON : Nat := 0x60
def POWER_BUTTON_CONFIG : Nat := 0x61

/-! ### Bit-field codec (src/cap1203.py lines 80-118) -/

/-- Python set_bits(register, value, index, length=1):
`mask = (2**length)-1; register &= ~(mask << index);
register |= (mask & value) << index`.  On a non-negative register the
Python `register & ~m` clears the bits of `m`, which over `Nat` is
`register ^^^ (register &&& m)` (see `xor_and_eq_ldiff`, identifying it
with `Nat.ldiff register m`).  The Python default `length=1` is passed
explicitly at every call site below. -/
def set_bits (register value index length : Nat) : Nat :=
  let mask := 2 ^ length - 1
  let register := register ^^^ (register &&& (mask <<< index))
  register ||| ((mask &&& value) <<< index)

/-- Clearing the bits of `m` in `a` (the Python `a & ~m` for `a ≥ 0`) is
both `a ^^^ (a &&& m)` and `Nat.ldiff a m`. -/
theorem xor_and_eq_ldiff (a m : Nat) : a ^^^ (a &&& m) = Nat.ldiff a m := by
  apply Nat.eq_of_testBit_eq
  intro k
  simp only [Nat.testBit_xor, Nat.testBit_and, Nat.testBit_ldiff]
  cases a.testBit k <;> cases m.testBit k <;> rfl

/-- The numeric core of Python get_bits: `(register >> index) & (2**length - 1)`. -/
def get_bits_val (register index length : Nat) : Nat :=
  (register >>> index) &&& (2 ^ length - 1)

/-- Result type of Python get_bits, which returns a `bool` when
`length == 1` and an `int` otherwise. -/
inductive BitVal where
  | b (val : Bool)
  | n (val : Nat)
  deriving DecidableEq, Repr

/-- The integer a Python comparison sees for a `get_bits` result
(`True == 1`, `False == 0`). -/
def BitVal.toNat : BitVal → Nat
  | .b true => 1
  | .b false => 0
  | .n v => v

/-- Python truthiness of a `get_bits` result. -/
def BitVal.truthy : BitVal → Bool
  | .b v => v
  | .n v => v != 0

/-- Python get_bits(register, index, length=1): extracts the field and
returns `result == 1` as a boolean when `length == 1`, else the integer. -/
def get_bits (register index length : Nat) : BitVal :=
  let result := (register >>> index) &&& (2 ^ length - 1)
  if length = 1 then .b (result == 1) else .n result

theorem get_bits_toNat (register index length : Nat) :
    (get_bits register index length).toNat = get_bits_val register index length := by
  unfold get_bits get_bits_val
  by_cases h : length = 1
  · subst h
    simp only [if_pos rfl]
    have hlt : (register >>> index) &&& (2 ^ 1 - 1) < 2 :=
      Nat.lt_of_le_of_lt Nat.and_le_right (by norm_num)
    interval_cases h : (register >>> index) &&& (2 ^ 1 - 1)
    · simp [BitVal.toNat]
    · simp [BitVal.toNat]
  · simp [h, BitVal.toNat]

/-- Round-trip at the bit level, no range constraint needed (Python ints
are unbounded): extracting the field just written yields the truncated
value. -/
theorem get_bits_val_set_bits (b v i l : Nat) :
    get_bits_val (set_bits b v i l) i l = v &&& (2 ^ l - 1) := by
  unfold get_bits_val set_bits
  apply Nat.eq_of_testBit_eq
  intro k
  simp only [Nat.testBit_and, Nat.testBit_shiftRight, Nat.testBit_or,
    Nat.testBit_xor, Nat.testBit_shiftLeft, Nat.testBit_two_pow_sub_one]
  by_cases hk : k < l
  · have hge : i ≤ i + k := Nat.le_add_right i k
    simp [hge, Nat.add_sub_cancel_left, hk, Nat.lt_irrefl]
  · simp [hk]

/-- Frame property of set_bits at the bit level: bits outside the mask
`(2^length - 1) <<< index` are unchanged.  In Python terms
`set_bits(b,v,i,l) & ~mask == b & ~mask`, which on non-negative operands
is `Nat.ldiff`. -/
theorem ldiff_set_bits (b v i l : Nat) :
    Nat.ldiff (set_bits b v i l) ((2 ^ l - 1) <<< i) =
      Nat.ldiff b ((2 ^ l - 1) <<< i) := by
  unfold set_bits
  apply Nat.eq_of_testBit_eq
  intro k
  simp only [Nat.testBit_ldiff, Nat.testBit_or, Nat.testBit_shiftLeft,
    Nat.testBit_and, Nat.testBit_xor, Nat.testBit_two_pow_sub_one]
  by_cases h1 : i ≤ k
  · by_cases h2 : k - i < l
    · simp [h1, h2]
    · simp [h1, h2]
  · simp [h1]

/-! ### Enumerations (src/cap1203.py lines 56-77) -/

/-- Pad flag values (IntFlag Pad); a pad set is its 3-bit mask. -/
def Pad.Left : Nat := 0x01

/-- Middle pad flag value. -/
def Pad.Middle : Nat := 0x02

/-- Right pad flag value. -/
def Pad.Right : Nat := 0x04

/-- Sensitivity enumeration (IntEnum Sensitivity), values 0x00-0x07. -/
inductive Sensitivity where
  | x128 | x64 | x32 | x16 | x8 | x4 | x2 | x1
  deriving DecidableEq, Repr

/-- Integer value of a Sensitivity member. -/
def Sensitivity.toNat : Sensitivity → Nat
  | .x128 => 0x00
  | .x64 => 0x01
  | .x32 => 0x02
  | .x16 => 0x03
  | .x8 => 0x04
  | .x4 => 0x05
  | .x2 => 0x06
  | .x1 => 0x07

/-- Python enum-call Sensitivity(n): the member with value `n`, or a
ValueError (here `none`) when no member has that value. -/
def Sensitivity.ofValue : Nat → Option Sensitivity
  | 0x00 => some .x128
  | 0x01 => some .x64
  | 0x02 => some .x32
  | 0x03 => some .x16
  | 0x04 => some .x8
  | 0x05 => some .x4
  | 0x06 => some .x2
  | 0x07 => some .x1
  | _ => none

/-- PowerTime enumeration (IntEnum PowerTime), values 0x00-0x03. -/
inductive PowerTime where
  | t280ms | t560ms | t1120ms | t2240ms
  deriving DecidableEq, Repr

/-- Integer value of a PowerTime member. -/
def PowerTime.toNat : PowerTime → Nat
  | .t280ms => 0x00
  | .t560ms => 0x01
  | .t1120ms => 0x02
  | .t2240ms => 0x03

/-- Python enum-call PowerTime(n): the member with value `n`, or a
ValueError (here `none`) when no member has that value. -/
def PowerTime.ofValue : Nat → Option PowerTime
  | 0x00 => some .t280ms
  | 0x01 => some .t560ms
  | 0x02 => some .t1120ms
  | 0x03 => some .t2240ms
  | _ => none

/-! ### Bus model

The smbus transport is modelled as a register file `Regs` (one byte per
register address) plus, for the connection probe, a schedule saying which
`read_byte` attempts succeed.  Every bus transaction an operation issues
is recorded in a `Txn` trace, in order. -/

/-- Register file of the device: register address to byte. -/
def Regs : Type := Nat → Nat

/-- One bus transaction: a probe (`bus.read_byte(address)` during
`is_connected`), a register read (`read_i2c_block_data`) or a register
write (`write_i2c_block_data`). -/
inductive Txn where
  | probe
  | read (register : Nat)
  | write (register : Nat) (value : Nat)
  deriving DecidableEq, Repr

/-- Functional update of the register file, as performed by a register
write on the device. -/
def updateReg (regs : Regs) (register value : Nat) : Regs :=
  fun r => if r = register then value else regs r

/-- CAP1203._read_register: read one byte from a register.  Returns the
byte and the transaction issued. -/
def read_register (regs : Regs) (register : Nat) : Nat × List Txn :=
  (regs register, [.read register])

/-- CAP1203._write_register: write one byte to a register.  Returns the
new register file and the transaction issued. -/
def write_register (regs : Regs) (register value : Nat) : Regs × List Txn :=
  (updateReg regs register value, [.write register value])

/-- CAP1203._read_bits_from_register: `get_bits(_read_register(register),
index, length)`. -/
def read_bits_from_register (regs : Regs) (register index length : Nat) :
    BitVal × List Txn :=
  (get_bits (regs register) index length, [.read register])

/-- CAP1203._write_bits_to_register: `_write_register(register,
set_bits(_read_register(register), value, index, length))` — a read of
the register followed by a write of the updated byte. -/
def write_bits_to_register (regs : Regs) (register value index length : Nat) :
    Regs × List Txn :=
  let old := regs register
  let new := set_bits old value index length
  (updateReg regs register new, [.read register, .write register new])

/-! ### Driver operations (src/cap1203.py lines 121-463) -/

/-- A warning printed by check_status: the message tag together with the
pad mask it reports. -/
inductive Warning where
  | baseCountOutOfRange (pads : Nat)
  | calibrationFailed (pads : Nat)
  deriving DecidableEq, Repr

/-- CAP1203.check_status: reads GENERAL_STATUS, then
`bc_pad = Pad(_read_bits_from_register(CALIBRATION_ACTIVATE_AND_STATUS, 0, 3))`
and
`error_pad = Pad(_read_bits_from_register(BASE_COUNT_OUT, 0, 3))`;
prints a base-count warning naming `bc_pad` when bit 6 of the status byte
is set (and `bc_pad` is truthy), a calibration warning naming `error_pad`
when bit 5 is set (and `error_pad` is truthy); returns
`bc_pad | error_pad`.  Result: returned pad mask, transactions, warnings. -/
def check_status (regs : Regs) : Nat × List Txn × List Warning :=
  let reg := regs GENERAL_STATUS
  let bc_pad := get_bits_val (regs CALIBRATION_ACTIVATE_AND_STATUS) 0 3
  let error_pad := get_bits_val (regs BASE_COUNT_OUT) 0 3
  let w1 : List Warning :=
    if (get_bits reg 6 1).truthy then
      if bc_pad ≠ 0 then [.baseCountOutOfRange bc_pad] else []
    else []
  let w2 : List Warning :=
    if (get_bits reg 5 1).truthy then
      if error_pad ≠ 0 then [.calibrationFailed error_pad] else []
    else []
  (bc_pad ||| error_pad,
   [.read GENERAL_STATUS, .read CALIBRATION_ACTIVATE_AND_STATUS,
    .read BASE_COUNT_OUT],
   w1 ++ w2)

/-- CAP1203.reset: `_write_register(CALIBRATION_ACTIVATE_AND_STATUS, 0x07)`
— a blind write of the fixed command byte. -/
def reset (regs : Regs) : Regs × List Txn :=
  write_register regs CALIBRATION_ACTIVATE_AND_STATUS 0x07

/-- CAP1203.set_sensitivity:
`_write_bits_to_register(SENSITIVITY_CONTROL, sensitivity, 4, 3)`. -/
def set_sensitivity (regs : Regs) (sensitivity : Sensitivity) : Regs × List Txn :=
  write_bits_to_register regs SENSITIVITY_CONTROL sensitivity.toNat 4 3

/-- CAP1203.get_sensitivity:
`Sensitivity(_read_bits_from_register(SENSITIVITY_CONTROL, 4, 3))`;
the enum call is `none` on a value no member carries. -/
def get_sensitivity (regs : Regs) : Option Sensitivity × List Txn :=
  (Sensitivity.ofValue (get_bits_val (regs SENSITIVITY_CONTROL) 4 3),
   [.read SENSITIVITY_CONTROL])

/-- Argument of set_interrupt_setting, which accepts a Pad set or a bool. -/
inductive PadOrBool where
  | pads (mask : Nat)
  | flag (b : Bool)
  deriving DecidableEq, Repr

/-- CAP1203.set_interrupt_setting: `pad = enable` when a Pad is given,
else `pad = Pad(0b111 * enable)`; then
`_write_bits_to_register(INTERRUPT_ENABLE, pad, 0, 3)`. -/
def set_interrupt_setting (regs : Regs) (enable : PadOrBool) : Regs × List Txn :=
  let pad := match enable with
    | .pads p => p
    | .flag b => 0b111 * (if b then 1 else 0)
  write_bits_to_register regs INTERRUPT_ENABLE pad 0 3

/-- CAP1203.get_interrupt_setting:
`Pad(_read_bits_from_register(INTERRUPT_ENABLE, 0, 3))`. -/
def get_interrupt_setting (regs : Regs) : Nat × List Txn :=
  (get_bits_val (regs INTERRUPT_ENABLE) 0 3, [.read INTERRUPT_ENABLE])

/-- CAP1203.clear_interrupt:
`_write_bits_to_register(MAIN_CONTROL, False, 0)` — value False (= 0),
index 0, default length 1. -/
def clear_interrupt (regs : Regs) : Regs × List Txn :=
  write_bits_to_register regs MAIN_CONTROL 0 0 1

/-- CAP1203.check_touched:
`Pad(_read_bits_from_register(SENSOR_INPUT_STATUS, 0, 3))`. -/
def check_touched (regs : Regs) : Nat × List Txn :=
  (get_bits_val (regs SENSOR_INPUT_STATUS) 0 3, [.read SENSOR_INPUT_STATUS])

/-- CAP1203.get_touched: `res = check_touched()`; `if res is not Pad(0):
clear_interrupt()`; returns `res`.  CPython caches the Pad(0)
pseudo-member, so the identity test is equivalent to `res != 0`. -/
def get_touched (regs : Regs) : Nat × Regs × List Txn :=
  let ct := check_touched regs
  let res := ct.1
  if res ≠ 0 then
    let ci := clear_interrupt regs
    (res, ci.1, ct.2 ++ ci.2)
  else
    (res, regs, ct.2)

/-- CAP1203.is_touched: `res = _read_bits_from_register(GENERAL_STATUS, 0)`;
on a truthy result clears the interrupt and returns true, else false. -/
def is_touched (regs : Regs) : Bool × Regs × List Txn :=
  let rb := read_bits_from_register regs GENERAL_STATUS 0 1
  if rb.1.truthy then
    let ci := clear_interrupt regs
    (true, ci.1, rb.2 ++ ci.2)
  else
    (false, regs, rb.2)

/-- CAP1203.is_left_touched: `res = check_touched()`; `if Pad.Left in res:
clear_interrupt(); return True`; else false.  IntFlag membership
`flag in res` is `res & flag == flag`. -/
def is_left_touched (regs : Regs) : Bool × Regs × List Txn :=
  let ct := check_touched regs
  if ct.1 &&& Pad.Left = Pad.Left then
    let ci := clear_interrupt regs
    (true, ci.1, ct.2 ++ ci.2)
  else
    (false, regs, ct.2)

/-- CAP1203.is_right_touched: `res = check_touched()`; `if Pad.Right in
res: clear_interrupt(); return True`; else false. -/
def is_right_touched (regs : Regs) : Bool × Regs × List Txn :=
  let ct := check_touched regs
  if ct.1 &&& Pad.Right = Pad.Right then
    let ci := clear_interrupt regs
    (true, ci.1, ct.2 ++ ci.2)
  else
    (false, regs, ct.2)

/-- CAP1203.is_middle_touched: `res = check_touched()`; `if Pad.Middle in
res: clear_interrupt(); return True`; else false. -/
def is_middle_touched (regs : Regs) : Bool × Regs × List Txn :=
  let ct := check_touched regs
  if ct.1 &&& Pad.Middle = Pad.Middle then
    let ci := clear_interrupt regs
    (true, ci.1, ct.2 ++ ci.2)
  else
    (false, regs, ct.2)

/-- CAP1203.is_power_button_touched:
`res = _read_bits_from_register(GENERAL_STATUS, 4)`; on a truthy result
clears the interrupt and returns true, else false. -/
def is_power_button_touched (regs : Regs) : Bool × Regs × List Txn :=
  let rb := read_bits_from_register regs GENERAL_STATUS 4 1
  if rb.1.truthy then
    let ci := clear_interrupt regs
    (true, ci.1, rb.2 ++ ci.2)
  else
    (false, regs, rb.2)

/-- CAP1203.set_power_button_pad:
`_write_bits_to_register(POWER_BUTTON, pad, 0, 3)`. -/
def set_power_button_pad (regs : Regs) (pad : Nat) : Regs × List Txn :=
  write_bits_to_register regs POWER_BUTTON pad 0 3

/-- CAP1203.get_power_button_pad:
`Pad(_read_bits_from_register(POWER_BUTTON, 0, 3))`. -/
def get_power_button_pad (regs : Regs) : Nat × List Txn :=
  (get_bits_val (regs POWER_BUTTON) 0 3, [.read POWER_BUTTON])

/-- CAP1203.set_power_button_time:
`_write_bits_to_register(POWER_BUTTON_CONFIG, time, 0, 2)`. -/
def set_power_button_time (regs : Regs) (time : PowerTime) : Regs × List Txn :=
  write_bits_to_register regs POWER_BUTTON_CONFIG time.toNat 0 2

/-- CAP1203.get_power_button_time:
`PowerTime(_read_bits_from_register(POWER_BUTTON_CONFIG, 0, 2))`;
the enum call is `none` on a value no member carries. -/
def get_power_button_time (regs : Regs) : Option PowerTime × List Txn :=
  (PowerTime.ofValue (get_bits_val (regs POWER_BUTTON_CONFIG) 0 2),
   [.read POWER_BUTTON_CONFIG])

/-- CAP1203.set_power_button:
`_write_bits_to_register(POWER_BUTTON_CONFIG, enabled, 2)` — a Python
bool as value is its integer (True = 1, False = 0), default length 1. -/
def set_power_button (regs : Regs) (enabled : Bool) : Regs × List Txn :=
  write_bits_to_register regs POWER_BUTTON_CONFIG (if enabled then 1 else 0) 2 1

/-! ### Connection and construction (src/cap1203.py lines 123-164) -/

/-- The transport handed to the constructor: the register file plus a
schedule saying whether the i-th `read_byte` probe attempt succeeds
(`false` = the attempt raises OSError). -/
structure Bus where
  regs : Regs
  probeOk : Nat → Bool

/-- Errors the constructor can raise: `ValueError("Invalid Address...")`,
`ValueError("Invalid bus...")`, `RuntimeError("Cannot connect...")`. -/
inductive InitError where
  | invalidAddress
  | invalidBus
  | notConnected
  deriving DecidableEq, Repr

/-- The `for i in range(5)` retry loop of CAP1203.is_connected, started at
attempt `start` with `fuel` attempts left: each attempted `read_byte`
records a probe transaction; the loop stops at the first success. -/
def is_connected_loop (probeOk : Nat → Bool) (start : Nat) : Nat → Bool × List Txn
  | 0 => (false, [])
  | fuel + 1 =>
    if probeOk start then (true, [.probe])
    else
      let rest := is_connected_loop probeOk (start + 1) fuel
      (rest.1, .probe :: rest.2)

/-- CAP1203.is_connected: up to 5 `read_byte` attempts, swallowing OSError
between attempts; true as soon as one succeeds, false if all 5 fail. -/
def is_connected (probeOk : Nat → Bool) : Bool × List Txn :=
  is_connected_loop probeOk 0 5

/-- CAP1203.__init__ with a possibly absent bus: raises invalidAddress
when `address != ADDRESS`, then invalidBus when `bus is None`; then, if
`is_connected()`, runs `set_sensitivity(Sensitivity.x2)`,
`set_interrupt_setting(True)`, `clear_interrupt()` and succeeds with the
resulting register file, else raises notConnected.  Also returns the full
bus-transaction trace. -/
def init (bus : Option Bus) (address : Nat) : Except InitError Regs × List Txn :=
  if address ≠ ADDRESS then (.error .invalidAddress, [])
  else
    match bus with
    | none => (.error .invalidBus, [])
    | some b =>
      let conn := is_connected b.probeOk
      if conn.1 then
        let s1 := set_sensitivity b.regs .x2
        let s2 := set_interrupt_setting s1.1 (.flag true)
        let s3 := clear_interrupt s2.1
        (.ok s3.1, conn.2 ++ s1.2 ++ s2.2 ++ s3.2)
      else
        (.error .notConnected, conn.2)

/-! ### Trace observers -/

/-- The write transactions of a trace, in order. -/
def writesOf : List Txn → List (Nat × Nat)
  | [] => []
  | .write r v :: rest => (r, v) :: writesOf rest
  | _ :: rest => writesOf rest

/-- The blind writes of a trace: writes to a register not read earlier in
the same trace (`seen` accumulates the registers read so far). -/
def blindWrites : List Txn → List Nat → List (Nat × Nat)
  | [], _ => []
  | .read r :: rest, seen => blindWrites rest (r :: seen)
  | .write r v :: rest, seen =>
    if r ∈ seen then blindWrites rest seen else (r, v) :: blindWrites rest seen
  | .probe :: rest, seen => blindWrites rest seen

/-- Every transaction the probe loop issues is a probe. -/
theorem is_connected_loop_probes (p : Nat → Bool) (fuel : Nat) :
    ∀ start t, t ∈ (is_connected_loop p start fuel).2 → t = Txn.probe := by
  induction fuel with
  | zero =>
    intro start t ht
    simp [is_connected_loop] at ht
  | succ n ih =>
    intro start t ht
    by_cases h0 : p start
    · simp [is_connected_loop, h0] at ht
      exact ht
    · simp only [is_connected_loop, h0, Bool.false_eq_true, if_false,
        List.mem_cons] at ht
      rcases ht with h | h
      · exact h
      · exact ih (start + 1) t h

/-- Every transaction is_connected issues is a probe. -/
theorem is_connected_probes (p : Nat → Bool) :
    ∀ t ∈ (is_connected p).2, t = Txn.probe :=
  fun t ht => is_connected_loop_probes p 5 0 t ht

/-- A trace of probes only contributes no blind write. -/
theorem blindWrites_probes_append (l1 l2 : List Txn) (seen : List Nat)
    (h : ∀ t ∈ l1, t = Txn.probe) :
    blindWrites (l1 ++ l2) seen = blindWrites l2 seen := by
  induction l1 with
  | nil => rfl
  | cons hd tl ih =>
    have hhd := h hd (List.mem_cons_self hd tl)
    subst hhd
    simp only [List.cons_append, blindWrites]
    exact ih fun t ht => h t (List.mem_cons_of_mem _ ht)

/-! ### Claim theorems -/

/-- C1: for every byte b, every value v, and every offset and width with
offset + width ≤ 8, get_bits(set_bits(b, v, offset, width), offset, width)
equals v masked to width bits, i.e. v & ((1<<width)-1) (a width-1 result
is a Python bool, which compares equal to the integer 0 or 1). -/
theorem C1_get_set_roundtrip (b v offset width : Nat)
    (hb : b < 256) (h : offset + width ≤ 8) :
    (get_bits (set_bits b v offset width) offset width).toNat =
      v &&& ((1 <<< width) - 1) := by
  rw [get_bits_toNat, get_bits_val_set_bits, Nat.one_shiftLeft]

/-- Witness for C1 at b = 0xA5, v = 0x1D, offset = 2, width = 3. -/
theorem C1_witness :
    0xA5 < 256 ∧ 2 + 3 ≤ 8 ∧
      (get_bits (set_bits 0xA5 0x1D 2 3) 2 3).toNat = 0x1D &&& ((1 <<< 3) - 1) :=
  ⟨by decide, by decide, C1_get_set_roundtrip 0xA5 0x1D 2 3 (by decide) (by decide)⟩

/-- C2: for every byte b, value v, offset and width with
offset + width ≤ 8, set_bits leaves every bit outside
[offset, offset+width) unchanged: set_bits(b,v,offset,width) & ~mask ==
b & ~mask with mask = ((1<<width)-1) << offset; on non-negative operands
the Python `x & ~mask` is `Nat.ldiff x mask`. -/
theorem C2_set_bits_frame (b v offset width : Nat)
    (hb : b < 256) (h : offset + width ≤ 8) :
    Nat.ldiff (set_bits b v offset width) (((1 <<< width) - 1) <<< offset) =
      Nat.ldiff b (((1 <<< width) - 1) <<< offset) := by
  rw [Nat.one_shiftLeft]
  exact ldiff_set_bits b v offset width

/-- Witness for C2 at b = 0xA5, v = 0xFF, offset = 2, width = 3. -/
theorem C2_witness :
    0xA5 < 256 ∧ 2 + 3 ≤ 8 ∧
      Nat.ldiff (set_bits 0xA5 0xFF 2 3) (((1 <<< 3) - 1) <<< 2) =
        Nat.ldiff 0xA5 (((1 <<< 3) - 1) <<< 2) :=
  ⟨by decide, by decide, C2_set_bits_frame 0xA5 0xFF 2 3 (by decide) (by decide)⟩

/-- Register file exhibiting the register swap inside check_status: the
general-status byte has only bit 6 (base count out of range) set, the
calibration-status register holds 0b001 (Left) and the base-count-out
register holds 0b010 (Middle). -/
def c3Regs : Regs := fun r =>
  if r = GENERAL_STATUS then 0x40
  else if r = CALIBRATION_ACTIVATE_AND_STATUS then 0b001
  else if r = BASE_COUNT_OUT then 0b010
  else 0

/-- C3, evaluated at the failing input: with only the base-count bit set,
the base-count warning of the code names the pads read from the
calibration-status register (Left), not those read from the
base-count-out register (Middle) as the claim states — in check_status
the two detail registers are swapped (`bc_pad` is read from
CALIBRATION_ACTIVATE_AND_STATUS, `error_pad` from BASE_COUNT_OUT).  The
remaining parts of the claim do hold here: the returned mask is the union
of both fields and no write (so no latch clear) is issued. -/
theorem C3_check_status_register_swap :
    (check_status c3Regs).2.2 = [Warning.baseCountOutOfRange Pad.Left] ∧
      get_bits_val (c3Regs BASE_COUNT_OUT) 0 3 = Pad.Middle ∧
      (check_status c3Regs).1 = (Pad.Left ||| Pad.Middle) ∧
      writesOf (check_status c3Regs).2.1 = [] := by
  decide

/-- Touch-status register holding 0b010 (Middle), all else 0. -/
def c4TouchRegs : Regs := fun r => if r = SENSOR_INPUT_STATUS then 0b010 else 0

/-- All registers 0: touch-status holds 0b000. -/
def c4IdleRegs : Regs := fun _ => 0

/-- C4: get_touched returns the pad set decoded from the low 3 bits of the
touch-status register and clears the interrupt latch (read-modify-write
putting 0 into bit 0 of the main-control register) iff that pad set is
non-empty; in particular with touch-status 0b010 it returns Middle and
issues the clearing write, and with touch-status 0b000 it returns the
empty set and issues no write. -/
theorem C4_get_touched (regs : Regs) :
    ((get_touched regs).1 = get_bits_val (regs SENSOR_INPUT_STATUS) 0 3 ∧
      (if get_bits_val (regs SENSOR_INPUT_STATUS) 0 3 ≠ 0 then
        (get_touched regs).2.2 =
          [Txn.read SENSOR_INPUT_STATUS, Txn.read MAIN_CONTROL,
            Txn.write MAIN_CONTROL (set_bits (regs MAIN_CONTROL) 0 0 1)] ∧
          get_bits_val (set_bits (regs MAIN_CONTROL) 0 0 1) 0 1 = 0 ∧
          (get_touched regs).2.1 =
            updateReg regs MAIN_CONTROL (set_bits (regs MAIN_CONTROL) 0 0 1)
      else
        (get_touched regs).2.2 = [Txn.read SENSOR_INPUT_STATUS] ∧
          writesOf (get_touched regs).2.2 = [] ∧
          (get_touched regs).2.1 = regs)) ∧
      ((get_touched c4TouchRegs).1 = Pad.Middle ∧
        writesOf (get_touched c4TouchRegs).2.2 = [(MAIN_CONTROL, 0)] ∧
        get_bits_val 0 0 1 = 0) ∧
      ((get_touched c4IdleRegs).1 = 0 ∧
        writesOf (get_touched c4IdleRegs).2.2 = []) := by
  by_cases h : get_bits_val (regs SENSOR_INPUT_STATUS) 0 3 ≠ 0
  · refine ⟨⟨?_, ?_⟩, by decide, by decide⟩
    · simp [get_touched, check_touched, h]
    · rw [if_pos h]
      refine ⟨?_, ?_, ?_⟩
      · simp [get_touched, check_touched, clear_interrupt, write_bits_to_register, h]
      · rw [get_bits_val_set_bits]
        decide
      · simp [get_touched, check_touched, clear_interrupt, write_bits_to_register, h]
  · refine ⟨⟨?_, ?_⟩, by decide, by decide⟩
    · simp [get_touched, check_touched, h]
    · rw [if_neg h]
      refine ⟨?_, ?_, ?_⟩ <;>
        simp [get_touched, check_touched, h, writesOf]

/-- C5: with address 0x28 and a transport whose probe read succeeds,
construction succeeds, and afterwards the low 3 bits of the
interrupt-enable register hold 0b111, the 3-bit field at offset 4 of the
sensitivity-control register holds 0x06 (sensitivity x2), and bit 0 of
the main-control register (the interrupt latch) is 0. -/
theorem C5_init_bringup (b : Bus) (h : b.probeOk 0 = true) :
    ∃ regs, (init (some b) ADDRESS).1 = Except.ok regs ∧
      get_bits_val (regs INTERRUPT_ENABLE) 0 3 = 0b111 ∧
      get_bits_val (regs SENSITIVITY_CONTROL) 4 3 = 0x06 ∧
      get_bits_val (regs MAIN_CONTROL) 0 1 = 0 := by
  have hconn : (is_connected b.probeOk).1 = true := by
    simp [is_connected, is_connected_loop, h]
  refine ⟨(clear_interrupt (set_interrupt_setting
      (set_sensitivity b.regs .x2).1 (.flag true)).1).1, ?_, ?_, ?_, ?_⟩
  · simp [init, hconn]
  · simp only [set_sensitivity, set_interrupt_setting, clear_interrupt,
      write_bits_to_register, updateReg, MAIN_CONTROL, INTERRUPT_ENABLE,
      SENSITIVITY_CONTROL, Sensitivity.toNat]
    norm_num
    rw [get_bits_val_set_bits]
    decide
  · simp only [set_sensitivity, set_interrupt_setting, clear_interrupt,
      write_bits_to_register, updateReg, MAIN_CONTROL, INTERRUPT_ENABLE,
      SENSITIVITY_CONTROL, Sensitivity.toNat]
    norm_num
    rw [get_bits_val_set_bits]
    decide
  · simp only [set_sensitivity, set_interrupt_setting, clear_interrupt,
      write_bits_to_register, updateReg, MAIN_CONTROL, INTERRUPT_ENABLE,
      SENSITIVITY_CONTROL, Sensitivity.toNat]
    norm_num
    rw [get_bits_val_set_bits]
    decide

/-- A responsive mock transport: every probe attempt succeeds. -/
def c5Bus : Bus := ⟨fun _ => 0xFF, fun _ => true⟩

/-- Witness for C5 on the responsive mock transport. -/
theorem C5_witness :
    c5Bus.probeOk 0 = true ∧
      ∃ regs, (init (some c5Bus) ADDRESS).1 = Except.ok regs ∧
        get_bits_val (regs INTERRUPT_ENABLE) 0 3 = 0b111 ∧
        get_bits_val (regs SENSITIVITY_CONTROL) 4 3 = 0x06 ∧
        get_bits_val (regs MAIN_CONTROL) 0 1 = 0 :=
  ⟨rfl, C5_init_bringup c5Bus rfl⟩

/-- C6: for every address different from 0x28, construction fails with the
InvalidAddress error, whatever the bus, and performs no bus transaction
(the trace is empty: no probe read, no register access). -/
theorem C6_invalid_address (bus : Option Bus) (address : Nat)
    (h : address ≠ ADDRESS) :
    init bus address = (Except.error InitError.invalidAddress, []) := by
  unfold init
  rw [if_pos h]

/-- Witness for C6 at address 0x29 with no bus. -/
theorem C6_witness :
    (0x29 : Nat) ≠ ADDRESS ∧
      init none 0x29 = (Except.error InitError.invalidAddress, []) :=
  ⟨by decide, C6_invalid_address none 0x29 (by decide)⟩

/-- The probe loop reports false when every remaining attempt fails. -/
theorem is_connected_loop_all_fail (p : Nat → Bool) (fuel : Nat) :
    ∀ start, (∀ j, j < fuel → p (start + j) = false) →
      (is_connected_loop p start fuel).1 = false := by
  induction fuel with
  | zero => intro start _; rfl
  | succ n ih =>
    intro start hfail
    have h0 : p start = false := by simpa using hfail 0 (Nat.succ_pos n)
    simp only [is_connected_loop, h0, Bool.false_eq_true, if_false]
    exact ih (start + 1) fun j hj => by
      have := hfail (j + 1) (Nat.succ_lt_succ hj)
      simpa [Nat.add_assoc, Nat.add_comm 1 j] using this

/-- The probe loop reports true as soon as one attempt in range succeeds. -/
theorem is_connected_loop_success (p : Nat → Bool) (fuel : Nat) :
    ∀ start j, j < fuel → p (start + j) = true →
      (is_connected_loop p start fuel).1 = true := by
  induction fuel with
  | zero => intro start j hj _; omega
  | succ n ih =>
    intro start j hj hp
    by_cases h0 : p start
    · simp [is_connected_loop, h0]
    · simp only [is_connected_loop, h0, Bool.false_eq_true, if_false]
      cases j with
      | zero =>
        rw [Nat.add_zero] at hp
        exact absurd hp (by simpa using h0)
      | succ k =>
        refine ih (start + 1) k (by omega) ?_
        rw [show start + 1 + k = start + (k + 1) by omega]
        exact hp

/-- C7: when every one of the 5 probe read attempts raises a transport
error, construction fails with NotConnected; when a failed attempt is
followed by a successful one inside the 5-attempt budget, no error
surfaces — construction succeeds. -/
theorem C7_probe_retries (b : Bus) :
    ((∀ i, i < 5 → b.probeOk i = false) →
      (init (some b) ADDRESS).1 = Except.error InitError.notConnected) ∧
    ((∃ i, i < 5 ∧ b.probeOk i = true) →
      ∃ regs, (init (some b) ADDRESS).1 = Except.ok regs) := by
  constructor
  · intro hfail
    have hconn : (is_connected b.probeOk).1 = false :=
      is_connected_loop_all_fail b.probeOk 5 0 fun j hj => by
        simpa using hfail j hj
    simp [init, hconn]
  · rintro ⟨i, hi, hp⟩
    have hconn : (is_connected b.probeOk).1 = true :=
      is_connected_loop_success b.probeOk 5 0 i hi (by simpa using hp)
    simp [init, hconn]

/-- A mock transport erroring on every probe attempt. -/
def c7BusFail : Bus := ⟨fun _ => 0, fun _ => false⟩

/-- A mock transport erroring on attempts 0 and 1, then responding on
attempt 2. -/
def c7BusRetry : Bus := ⟨fun _ => 0, fun i => i == 2⟩

/-- Witness for C7: the all-fail transport yields NotConnected, and the
transiently failing transport constructs successfully. -/
theorem C7_witness :
    (init (some c7BusFail) ADDRESS).1 = Except.error InitError.notConnected ∧
      ∃ regs, (init (some c7BusRetry) ADDRESS).1 = Except.ok regs :=
  ⟨(C7_probe_retries c7BusFail).1 fun _ _ => rfl,
    (C7_probe_retries c7BusRetry).2 ⟨2, by decide, rfl⟩⟩

/-- C8: every register-modifying operation other than reset follows
read-modify-write — its trace is exactly a read of the register followed
by a write of set_bits applied to the byte just read, and it performs no
blind write.  The enumeration covers all register-modifying operations of
the source: the setters, clear_interrupt, the conditional latch-clearers
get_touched, is_touched, is_left_touched, is_right_touched,
is_middle_touched and is_power_button_touched (whose only write is the
clear_interrupt read-modify-write, and only when their condition holds),
and the bring-up writes of the constructor.  The only blind write anywhere
is the fixed reset command 0x07 (within the bound the claim allows, which
also permits the latch clear; in the code the latch clear
read-modify-writes too). -/
theorem C8_rmw_discipline (regs : Regs) (s : Sensitivity) (e : PadOrBool)
    (p : Nat) (t : PowerTime) (en : Bool) :
    ((set_sensitivity regs s).2 =
      [Txn.read SENSITIVITY_CONTROL,
        Txn.write SENSITIVITY_CONTROL
          (set_bits (regs SENSITIVITY_CONTROL) s.toNat 4 3)] ∧
      blindWrites (set_sensitivity regs s).2 [] = []) ∧
    (blindWrites (set_interrupt_setting regs e).2 [] = []) ∧
    ((clear_interrupt regs).2 =
      [Txn.read MAIN_CONTROL,
        Txn.write MAIN_CONTROL (set_bits (regs MAIN_CONTROL) 0 0 1)] ∧
      blindWrites (clear_interrupt regs).2 [] = []) ∧
    ((set_power_button_pad regs p).2 =
      [Txn.read POWER_BUTTON,
        Txn.write POWER_BUTTON (set_bits (regs POWER_BUTTON) p 0 3)] ∧
      blindWrites (set_power_button_pad regs p).2 [] = []) ∧
    ((set_power_button_time regs t).2 =
      [Txn.read POWER_BUTTON_CONFIG,
        Txn.write POWER_BUTTON_CONFIG
          (set_bits (regs POWER_BUTTON_CONFIG) t.toNat 0 2)] ∧
      blindWrites (set_power_button_time regs t).2 [] = []) ∧
    ((set_power_button regs en).2 =
      [Txn.read POWER_BUTTON_CONFIG,
        Txn.write POWER_BUTTON_CONFIG
          (set_bits (regs POWER_BUTTON_CONFIG) (if en then 1 else 0) 2 1)] ∧
      blindWrites (set_power_button regs en).2 [] = []) ∧
    (blindWrites (get_touched regs).2.2 [] = []) ∧
    (blindWrites (is_touched regs).2.2 [] = []) ∧
    ((is_left_touched regs).2.2 =
      (if get_bits_val (regs SENSOR_INPUT_STATUS) 0 3 &&& Pad.Left = Pad.Left
      then
        [Txn.read SENSOR_INPUT_STATUS, Txn.read MAIN_CONTROL,
          Txn.write MAIN_CONTROL (set_bits (regs MAIN_CONTROL) 0 0 1)]
      else [Txn.read SENSOR_INPUT_STATUS]) ∧
      blindWrites (is_left_touched regs).2.2 [] = []) ∧
    ((is_right_touched regs).2.2 =
      (if get_bits_val (regs SENSOR_INPUT_STATUS) 0 3 &&& Pad.Right = Pad.Right
      then
        [Txn.read SENSOR_INPUT_STATUS, Txn.read MAIN_CONTROL,
          Txn.write MAIN_CONTROL (set_bits (regs MAIN_CONTROL) 0 0 1)]
      else [Txn.read SENSOR_INPUT_STATUS]) ∧
      blindWrites (is_right_touched regs).2.2 [] = []) ∧
    ((is_middle_touched regs).2.2 =
      (if get_bits_val (regs SENSOR_INPUT_STATUS) 0 3 &&& Pad.Middle
          = Pad.Middle
      then
        [Txn.read SENSOR_INPUT_STATUS, Txn.read MAIN_CONTROL,
          Txn.write MAIN_CONTROL (set_bits (regs MAIN_CONTROL) 0 0 1)]
      else [Txn.read SENSOR_INPUT_STATUS]) ∧
      blindWrites (is_middle_touched regs).2.2 [] = []) ∧
    ((is_power_button_touched regs).2.2 =
      (if (get_bits (regs GENERAL_STATUS) 4 1).truthy = true then
        [Txn.read GENERAL_STATUS, Txn.read MAIN_CONTROL,
          Txn.write MAIN_CONTROL (set_bits (regs MAIN_CONTROL) 0 0 1)]
      else [Txn.read GENERAL_STATUS]) ∧
      blindWrites (is_power_button_touched regs).2.2 [] = []) ∧
    (∀ (bus : Option Bus) (address : Nat),
      blindWrites (init bus address).2 [] = []) ∧
    ((reset regs).2 = [Txn.write CALIBRATION_ACTIVATE_AND_STATUS 0x07] ∧
      blindWrites (reset regs).2 [] =
        [(CALIBRATION_ACTIVATE_AND_STATUS, 0x07)]) := by
  refine ⟨⟨rfl, ?_⟩, ?_, ⟨rfl, ?_⟩, ⟨rfl, ?_⟩, ⟨rfl, ?_⟩, ⟨rfl, ?_⟩, ?_, ?_,
    ?_, ?_, ?_, ?_, ?_, rfl, ?_⟩
  · simp [set_sensitivity, write_bits_to_register, blindWrites]
  · cases e <;>
      simp [set_interrupt_setting, write_bits_to_register, blindWrites]
  · simp [clear_interrupt, write_bits_to_register, blindWrites]
  · simp [set_power_button_pad, write_bits_to_register, blindWrites]
  · simp [set_power_button_time, write_bits_to_register, blindWrites]
  · simp [set_power_button, write_bits_to_register, blindWrites]
  · by_cases h : get_bits_val (regs SENSOR_INPUT_STATUS) 0 3 ≠ 0 <;>
      simp [get_touched, check_touched, clear_interrupt,
        write_bits_to_register, blindWrites, h]
  · by_cases h : (get_bits (regs GENERAL_STATUS) 0 1).truthy <;>
      simp [is_touched, read_bits_from_register, clear_interrupt,
        write_bits_to_register, blindWrites, h]
  · by_cases h :
        get_bits_val (regs SENSOR_INPUT_STATUS) 0 3 &&& Pad.Left = Pad.Left <;>
      simp [is_left_touched, check_touched, clear_interrupt,
        write_bits_to_register, blindWrites, h]
  · by_cases h :
        get_bits_val (regs SENSOR_INPUT_STATUS) 0 3 &&& Pad.Right
          = Pad.Right <;>
      simp [is_right_touched, check_touched, clear_interrupt,
        write_bits_to_register, blindWrites, h]
  · by_cases h :
        get_bits_val (regs SENSOR_INPUT_STATUS) 0 3 &&& Pad.Middle
          = Pad.Middle <;>
      simp [is_middle_touched, check_touched, clear_interrupt,
        write_bits_to_register, blindWrites, h]
  · by_cases h : (get_bits (regs GENERAL_STATUS) 4 1).truthy <;>
      simp [is_power_button_touched, read_bits_from_register, clear_interrupt,
        write_bits_to_register, blindWrites, h]
  · intro bus address
    by_cases ha : address ≠ ADDRESS
    · simp [init, ha, blindWrites]
    · cases bus with
      | none => simp [init, ha, blindWrites]
      | some b =>
        by_cases hc : (is_connected b.probeOk).1 = true
        · simp only [init, ha, if_false, hc, if_true, List.append_assoc]
          rw [blindWrites_probes_append _ _ _ (is_connected_probes b.probeOk)]
          simp [set_sensitivity, set_interrupt_setting, clear_interrupt,
            write_bits_to_register, blindWrites, MAIN_CONTROL,
            INTERRUPT_ENABLE, SENSITIVITY_CONTROL]
        · simp only [init, ha, if_false, hc, List.append_assoc]
          have h2 := blindWrites_probes_append (is_connected b.probeOk).2 [] []
            (is_connected_probes b.probeOk)
          simpa using h2
  · simp [reset, write_register, blindWrites]

/-- C9: for every byte of the sensitivity-control register the decoded
3-bit field at offset 4 is below 8, hence one of the eight Sensitivity
members, and for every byte of the power-button-config register the
decoded 2-bit field at offset 0 is below 4, hence one of the four
PowerTime members: neither getter can fail on the enum conversion. -/
theorem C9_enum_decode_total (regs : Regs) :
    get_bits_val (regs SENSITIVITY_CONTROL) 4 3 < 8 ∧
      (get_sensitivity regs).1.isSome = true ∧
      get_bits_val (regs POWER_BUTTON_CONFIG) 0 2 < 4 ∧
      (get_power_button_time regs).1.isSome = true := by
  have hs : get_bits_val (regs SENSITIVITY_CONTROL) 4 3 < 8 :=
    Nat.lt_of_le_of_lt Nat.and_le_right (by norm_num)
  have ht : get_bits_val (regs POWER_BUTTON_CONFIG) 0 2 < 4 :=
    Nat.lt_of_le_of_lt Nat.and_le_right (by norm_num)
  refine ⟨hs, ?_, ht, ?_⟩
  · show (Sensitivity.ofValue (get_bits_val (regs SENSITIVITY_CONTROL) 4 3)).isSome = true
    generalize get_bits_val (regs SENSITIVITY_CONTROL) 4 3 = n at hs
    interval_cases n <;> rfl
  · show (PowerTime.ofValue (get_bits_val (regs POWER_BUTTON_CONFIG) 0 2)).isSome = true
    generalize get_bits_val (regs POWER_BUTTON_CONFIG) 0 2 = n at ht
    interval_cases n <;> rfl

/-- C10: construction validates the address before the bus: with an
address other than 0x28 and no bus at all, the failure is InvalidAddress,
not InvalidBus. -/
theorem C10_address_before_bus (address : Nat) (h : address ≠ ADDRESS) :
    (init none address).1 = Except.error InitError.invalidAddress ∧
      (init none address).1 ≠ Except.error InitError.invalidBus := by
  unfold init
  rw [if_pos h]
  exact ⟨rfl, by simp⟩

/-- Witness for C10 at address 0x29. -/
theorem C10_witness :
    (0x29 : Nat) ≠ ADDRESS ∧
      (init none 0x29).1 = Except.error InitError.invalidAddress ∧
      (init none 0x29).1 ≠ Except.error InitError.invalidBus :=
  ⟨by decide, C10_address_before_bus 0x29 (by decide)⟩

end CAP1203
